import Mathlib

/-
Shallow embedding of the RustBoy Game Boy emulator core
(src/registers.rs, src/memory.rs, src/gpu.rs, src/cpu.rs).

Machine integers are modelled as Nat with explicit wrap-around
(`% 256` for u8, `% 65536` for u16) exactly where the Rust code wraps;
fixed-size arrays are modelled as total functions `Nat → Nat`, with a
separate bounds-checked variant (`Option`-returning) used to reason about
the absence of out-of-range indexing.
-/

namespace RustBoy

/-- registers.rs `enum Flags`: flag bit positions inside F. -/
inductive Flags where
  | Z
  | N
  | H
  | C
deriving DecidableEq

/-- The numeric mask of each flag (registers.rs enum discriminants). -/
def Flags.mask : Flags → Nat
  | .Z => 0b10000000
  | .N => 0b01000000
  | .H => 0b00100000
  | .C => 0b00010000

/-- registers.rs `struct Registers`: eight 8-bit registers and SP, PC. -/
structure Registers where
  A : Nat
  F : Nat
  B : Nat
  C : Nat
  D : Nat
  E : Nat
  H : Nat
  L : Nat
  SP : Nat
  PC : Nat
deriving DecidableEq, Repr

/-- registers.rs `Registers::new`: the post-boot register state. -/
def Registers.new : Registers :=
  { A := 0x01, F := 0xb0, B := 0x00, C := 0x13, D := 0x00, E := 0xd8,
    H := 0x01, L := 0x4d, SP := 0xfffe, PC := 0x0100 }

/-- registers.rs `get_af` (the stored F is masked with 0xf0 on read). -/
def Registers.get_af (r : Registers) : Nat :=
  (r.A <<< 8) ||| (r.F &&& 0xf0)

/-- registers.rs `get_bc`. -/
def Registers.get_bc (r : Registers) : Nat :=
  (r.B <<< 8) ||| r.C

/-- registers.rs `get_de`. -/
def Registers.get_de (r : Registers) : Nat :=
  (r.D <<< 8) ||| r.E

/-- registers.rs `get_hl`. -/
def Registers.get_hl (r : Registers) : Nat :=
  (r.H <<< 8) ||| r.L

/-- registers.rs `set_af`: A gets the high byte, F gets the operand masked
with 0x00f0 (the `as u8` cast is the identity on that masked value). -/
def Registers.set_af (r : Registers) (operand : Nat) : Registers :=
  { r with A := (operand >>> 8) % 256, F := operand &&& 0x00f0 }

/-- registers.rs `set_bc`. -/
def Registers.set_bc (r : Registers) (operand : Nat) : Registers :=
  { r with B := (operand >>> 8) % 256, C := operand &&& 0x00ff }

/-- registers.rs `set_de`. -/
def Registers.set_de (r : Registers) (operand : Nat) : Registers :=
  { r with D := (operand >>> 8) % 256, E := operand &&& 0x00ff }

/-- registers.rs `set_hl`. -/
def Registers.set_hl (r : Registers) (operand : Nat) : Registers :=
  { r with H := (operand >>> 8) % 256, L := operand &&& 0x00ff }

/-- registers.rs `flag_set`: F |= mask. -/
def Registers.flag_set (r : Registers) (flag : Flags) : Registers :=
  { r with F := r.F ||| flag.mask }

/-- registers.rs `flag_reset`: F &= !mask; `!mask` on u8 is `0xff ^^^ mask`. -/
def Registers.flag_reset (r : Registers) (flag : Flags) : Registers :=
  { r with F := r.F &&& (0xff ^^^ flag.mask) }

/-- registers.rs `flag_get`: F & mask > 0. -/
def Registers.flag_get (r : Registers) (flag : Flags) : Bool :=
  decide (r.F &&& flag.mask > 0)

/-- cpu.rs `fn adc_a` (lines 1264-1276). `v` is the u8 wrapping sum
a + value + carry. In the source `v` has type u8, so the mask literal in
`v & 0xff00` is truncated to 0 and that carry test is identically false;
on the Nat model `v % 256 &&& 0xff00` is likewise always 0. Z is set from
`a == value` (the result-based test is commented out in the source), and
the half-carry test does not include the incoming carry. -/
def adc_a (r : Registers) (value : Nat) : Registers :=
  let a := r.A
  let carry : Nat := if r.flag_get Flags.C then 1 else 0
  let v := (a + value + carry) % 256
  let r := if a = value then r.flag_set Flags.Z else r.flag_reset Flags.Z
  let r := if (r.A &&& 0x0f) + (value &&& 0x0f) > 0x0f then r.flag_set Flags.H
           else r.flag_reset Flags.H
  let r := if v &&& 0xff00 ≠ 0 then r.flag_set Flags.C else r.flag_reset Flags.C
  let r := r.flag_reset Flags.N
  { r with A := v &&& 0xff }

/-- cpu.rs `fn add_hl` (lines 1300-1309). `res` is the u16 wrapping sum.
In the source the mask literal in `res & 0xffff0000` is truncated to 0 on
u16, so that carry test is identically false; the half-carry test uses the
low nibble (bit-3 carry). -/
def add_hl (r : Registers) (value : Nat) : Registers :=
  let hl := r.get_hl
  let res := (hl + value) % 65536
  let r := r.flag_reset Flags.N
  let r := if res &&& 0xffff0000 ≠ 0 then r.flag_set Flags.C else r.flag_reset Flags.C
  let r := if (hl &&& 0x0f) + (value &&& 0x0f) > 0x0f then r.flag_set Flags.H
           else r.flag_reset Flags.H
  r.set_hl res

/-- cpu.rs `fn add_sp_n` (lines 2632-2640). The operand is sign-extended
(`as i8 as i16 as u16`): for operand ≥ 0x80 that is `0xff00 ||| operand`.
`SP += v` wraps on u16. -/
def add_sp_n (r : Registers) (operand : Nat) : Registers :=
  let v := if operand &&& 0x80 ≠ 0 then 0xff00 ||| operand else operand
  let r := if (r.SP &&& 0x000f) + (v &&& 0x000f) > 0x000f then r.flag_set Flags.H
           else r.flag_reset Flags.H
  let r := if (r.SP &&& 0x00ff) + (v &&& 0x00ff) > 0x00ff then r.flag_set Flags.C
           else r.flag_reset Flags.C
  let r := r.flag_reset Flags.Z
  let r := r.flag_reset Flags.N
  { r with SP := (r.SP + v) % 65536 }

/-- cpu.rs `fn ldhl_sp_d` (lines 2700-2707). `v = SP + operand as u16`:
the operand is zero-extended (no sign extension) and `v` is the full sum;
the H and C tests then compare SP against `v` (the sum), not against the
operand. HL receives the sum. -/
def ldhl_sp_d (r : Registers) (operand : Nat) : Registers :=
  let v := (r.SP + operand) % 65536
  let r := if (r.SP &&& 0x000f) + (v &&& 0x000f) > 0x000f then r.flag_set Flags.H
           else r.flag_reset Flags.H
  let r := if (r.SP &&& 0x00ff) + (v &&& 0x00ff) > 0x00ff then r.flag_set Flags.C
           else r.flag_reset Flags.C
  let r := r.flag_reset Flags.Z
  let r := r.flag_reset Flags.N
  r.set_hl v

/-- Functional update of an array modelled as `Nat → Nat`. -/
def updFn (f : Nat → Nat) (i v : Nat) : Nat → Nat :=
  fun j => if j = i then v else f j

/-- gpu.rs `struct GPU`. Arrays are modelled as total functions; the
`renderer` field is the host pixel sink and carries no emulator state, so
it is omitted. -/
structure GPU where
  vram : Nat → Nat
  oam : Nat → Nat
  switchbg : Bool
  bg_map : Bool
  bg_tile : Bool
  lcd_on : Bool
  scanline : Nat
  scroll_x : Nat
  scroll_y : Nat
  win_x : Nat
  win_y : Nat
  gpu_mode : Nat
  gpu_ticks : Nat
  prev_ticks : Nat
  palette_b : Nat → Nat
  s_palette0 : Nat → Nat
  s_palette1 : Nat → Nat
  pixel_buffer : Nat → Nat
  tiles : Nat → Nat → Nat → Nat

/-- gpu.rs `GPU::new`: every array zeroed, mode 0, scanline 0. -/
def GPU.new : GPU :=
  { vram := fun _ => 0, oam := fun _ => 0,
    switchbg := false, bg_map := false, bg_tile := false, lcd_on := false,
    scanline := 0, scroll_x := 0, scroll_y := 0, win_x := 0, win_y := 0,
    gpu_mode := 0, gpu_ticks := 0, prev_ticks := 0,
    palette_b := fun _ => 0, s_palette0 := fun _ => 0, s_palette1 := fun _ => 0,
    pixel_buffer := fun _ => 0, tiles := fun _ _ _ => 0 }

/-- gpu.rs `fn update_tile` (lines 110-123): recompute row `(addr>>1)&7`
of tile `(addr>>4)&511` from the two bitplane bytes at `addr` (masked with
0x1ffe) and `addr+1`; the loop writes `tiles[tile][x][y]` for x in 0..8.
The `value` parameter is unused in the source body as well. -/
def GPU.update_tile (g : GPU) (address value : Nat) : GPU :=
  let addr := address &&& 0x1ffe
  let tile := (addr >>> 4) &&& 511
  let y := (addr >>> 1) &&& 7
  { g with tiles := fun t x yy =>
      if t = tile ∧ x < 8 ∧ yy = y then
        (if g.vram addr &&& (1 <<< (7 - x)) ≠ 0 then 1 else 0) +
        (if g.vram (addr + 1) &&& (1 <<< (7 - x)) ≠ 0 then 2 else 0)
      else g.tiles t x yy }

/-- gpu.rs `fn get_color`: palette translation of a 2-bit field. -/
def GPU.get_color (value i : Nat) : Nat :=
  match (value >>> (i * 2)) &&& 0x03 with
  | 0 => 255
  | 1 => 192
  | 2 => 96
  | _ => 0

/-- gpu.rs `fn u_palette_b`: entries 0..4 of the background palette. -/
def GPU.u_palette_b (g : GPU) (value : Nat) : GPU :=
  { g with palette_b := fun i => if i < 4 then GPU.get_color value i else g.palette_b i }

/-- gpu.rs `fn u_s_palette0`. -/
def GPU.u_s_palette0 (g : GPU) (value : Nat) : GPU :=
  { g with s_palette0 := fun i => if i < 4 then GPU.get_color value i else g.s_palette0 i }

/-- gpu.rs `fn u_s_palette1`. -/
def GPU.u_s_palette1 (g : GPU) (value : Nat) : GPU :=
  { g with s_palette1 := fun i => if i < 4 then GPU.get_color value i else g.s_palette1 i }

/-- gpu.rs `fn gpu_cycle` (lines 154-201): accumulate the tick delta
`cputicks - prev_ticks` (callers pass a monotone cumulative counter), then
run one transition of the mode state machine. Only the mode-0 completion
can return true, and only when the new scanline equals 143 and
`(enable & flags) != 0`. The u8 scanline increment wraps mod 256. The
unreachable default arm of the source match raises a fatal error; modelled
as the identity since `gpu_mode` only ever holds 0..3. -/
def GPU.gpu_cycle (g : GPU) (cputicks flags enable : Nat) : GPU × Bool :=
  let g := { g with gpu_ticks := g.gpu_ticks + (cputicks - g.prev_ticks),
                    prev_ticks := cputicks }
  match g.gpu_mode with
  | 0 =>
    if g.gpu_ticks ≥ 204 then
      let g := { g with scanline := (g.scanline + 1) % 256 }
      let p : GPU × Bool :=
        if g.scanline = 143 then
          ({ g with gpu_mode := 1 }, decide (enable &&& flags ≠ 0))
        else
          ({ g with gpu_mode := 2 }, false)
      ({ p.1 with gpu_ticks := p.1.gpu_ticks - 204 }, p.2)
    else (g, false)
  | 1 =>
    if g.gpu_ticks ≥ 456 then
      let g := { g with scanline := (g.scanline + 1) % 256 }
      let g := if g.scanline > 153 then { g with scanline := 0, gpu_mode := 2 } else g
      ({ g with gpu_ticks := g.gpu_ticks - 456 }, false)
    else (g, false)
  | 2 =>
    if g.gpu_ticks ≥ 80 then
      ({ g with gpu_mode := 3, gpu_ticks := g.gpu_ticks - 80 }, false)
    else (g, false)
  | 3 =>
    if g.gpu_ticks ≥ 172 then
      ({ g with gpu_mode := 0, gpu_ticks := g.gpu_ticks - 172 }, false)
    else (g, false)
  | _ => (g, false)

/-- memory.rs `struct Memory`. -/
structure Memory where
  cart : Nat → Nat
  sram : Nat → Nat
  iram : Nat → Nat
  eram : Nat → Nat
  io : Nat → Nat
  hram : Nat → Nat
  master : Bool
  enable : Nat
  flags : Nat
  gpu : GPU

/-- memory.rs `Memory::new`: everything zeroed, master disabled. -/
def Memory.new : Memory :=
  { cart := fun _ => 0, sram := fun _ => 0, iram := fun _ => 0,
    eram := fun _ => 0, io := fun _ => 0, hram := fun _ => 0,
    master := false, enable := 0, flags := 0, gpu := GPU.new }

/-- memory.rs `fn read_byte` (lines 80-107): the ordered range dispatch of
the source match, translated arm by arm. -/
def Memory.read_byte (m : Memory) (address : Nat) : Nat :=
  if address ≤ 0x7fff then m.cart address
  else if address ≤ 0x9fff then m.gpu.vram (address - 0x8000)
  else if address ≤ 0xbfff then m.sram (address - 0xa000)
  else if address ≤ 0xdfff then m.iram (address - 0xc000)
  else if address ≤ 0xfdff then m.eram (address - 0xe000)
  else if address ≤ 0xfeff then m.gpu.oam (address - 0xfe00)
  else if address = 0xff00 then 0
  else if address = 0xff04 then 1
  else if address = 0xff40 then
    (if m.gpu.switchbg then 0x01 else 0x0) |||
    (if m.gpu.bg_map then 0x08 else 0x0) |||
    (if m.gpu.bg_tile then 0x10 else 0x0) |||
    (if m.gpu.lcd_on then 0x80 else 0x0)
  else if address = 0xff42 then m.gpu.scroll_y
  else if address = 0xff43 then m.gpu.scroll_x
  else if address = 0xff44 then m.gpu.scanline
  else if address = 0xff4a then m.gpu.win_y
  else if address = 0xff4b then m.gpu.win_x
  else if address = 0xff0f then m.flags
  else if address ≤ 0xff7f then m.io (address - 0xff00)
  else if address ≤ 0xfffe then m.hram (address - 0xff80)
  else if address = 0xffff then m.enable
  else 1

/-- memory.rs `fn oam_to_ram` (lines 141-147): OAM DMA. The source loops
`write_byte(0xfe00 + i, read_byte((value << 8) + i))` for i in 0..0xa0;
every destination address falls in the 0xfe00..0xfeff arm of `write_byte`,
so that store is inlined here (index `i` into `gpu.oam`) to avoid mutual
recursion with `write_byte`. -/
def Memory.oam_to_ram (m : Memory) (value : Nat) : Memory :=
  let v := value <<< 8
  (List.range 0xa0).foldl
    (fun mm i =>
      let b := mm.read_byte (v + i)
      { mm with gpu := { mm.gpu with oam := updFn mm.gpu.oam i b } })
    m

/-- memory.rs `fn write_byte` (lines 109-139): the ordered range dispatch
of the source match, translated arm by arm. In the VRAM arm the tile cache
refresh is guarded by the strict test `address < 0x97ff`, and the
`0xffff => enable = value` arm is commented out in the source, so a write
to 0xffff falls through to the empty default arm. -/
def Memory.write_byte (m : Memory) (address value : Nat) : Memory :=
  if address ≤ 0x7fff then { m with cart := updFn m.cart address value }
  else if address ≤ 0x9fff then
    let m := { m with gpu :=
      { m.gpu with vram := updFn m.gpu.vram (address - 0x8000) value } }
    if address < 0x97ff then { m with gpu := m.gpu.update_tile address value } else m
  else if address ≤ 0xbfff then { m with sram := updFn m.sram (address - 0xa000) value }
  else if address ≤ 0xdfff then { m with iram := updFn m.iram (address - 0xc000) value }
  else if address ≤ 0xfdff then { m with eram := updFn m.eram (address - 0xe000) value }
  else if address ≤ 0xfeff then
    { m with gpu := { m.gpu with oam := updFn m.gpu.oam (address - 0xfe00) value } }
  else if address = 0xff40 then
    { m with gpu := { m.gpu with
        switchbg := decide (value &&& 0x01 ≠ 0),
        bg_map := decide (value &&& 0x08 ≠ 0),
        bg_tile := decide (value &&& 0x10 ≠ 0),
        lcd_on := decide (value &&& 0x80 ≠ 0) } }
  else if address = 0xff42 then { m with gpu := { m.gpu with scroll_y := value } }
  else if address = 0xff43 then { m with gpu := { m.gpu with scroll_x := value } }
  else if address = 0xff46 then m.oam_to_ram value
  else if address = 0xff47 then { m with gpu := m.gpu.u_palette_b value }
  else if address = 0xff48 then { m with gpu := m.gpu.u_s_palette0 value }
  else if address = 0xff49 then { m with gpu := m.gpu.u_s_palette1 value }
  else if address = 0xff4a then { m with gpu := { m.gpu with win_y := value } }
  else if address = 0xff4b then { m with gpu := { m.gpu with win_x := value } }
  else if address = 0xff0f then { m with flags := value }
  else if address ≤ 0xff7f then { m with io := updFn m.io (address - 0xff00) value }
  else if address ≤ 0xfffe then { m with hram := updFn m.hram (address - 0xff80) value }
  else m

/-- memory.rs `fn read_short`: little-endian byte pair; `address + 1`
wraps on u16. -/
def Memory.read_short (m : Memory) (address : Nat) : Nat :=
  m.read_byte address ||| (m.read_byte ((address + 1) % 65536) <<< 8)

/-- memory.rs `fn write_short`: little-endian byte pair; `address + 1`
wraps on u16. -/
def Memory.write_short (m : Memory) (address value : Nat) : Memory :=
  let m := m.write_byte address (value &&& 0xff)
  m.write_byte ((address + 1) % 65536) ((value >>> 8) % 256)

/-- memory.rs `fn gpu_cycle` (lines 39-43): tick the GPU with the current
IF and IE bytes; when it reports a vblank, raise bit 0 (VBLANK) in IF. -/
def Memory.gpu_cycle (m : Memory) (cputicks : Nat) : Memory :=
  let p := m.gpu.gpu_cycle cputicks m.flags m.enable
  let m := { m with gpu := p.1 }
  if p.2 then { m with flags := m.flags ||| 0b00000001 } else m

/-- cpu.rs `struct CPU`. -/
structure CPU where
  register : Registers
  memory : Memory
  ticks : Nat
  stopped : Bool
  halted : Bool
  debugging : Bool

/-- cpu.rs `fn push_stack`: SP -= 2 (u16 wrap), then write_short at the
new SP. -/
def CPU.push_stack (c : CPU) (value : Nat) : CPU :=
  let sp := (c.register.SP + 65536 - 2) % 65536
  { c with register := { c.register with SP := sp },
           memory := c.memory.write_short sp value }

/-- cpu.rs `fn vblank` (lines 97-104): clear IME, push PC, jump to 0x40,
charge 36 ticks. The `draw_framebuffer` call only touches the host
renderer and carries no emulator state. -/
def CPU.vblank (c : CPU) : CPU :=
  let c := { c with memory := { c.memory with master := false } }
  let pc := c.register.PC
  let c := c.push_stack pc
  { c with register := { c.register with PC := 0x40 }, ticks := c.ticks + 36 }

/-- cpu.rs `fn lcd_status`: clear IME, push PC, jump to 0x48, charge 36. -/
def CPU.lcd_status (c : CPU) : CPU :=
  let c := { c with memory := { c.memory with master := false } }
  let pc := c.register.PC
  let c := c.push_stack pc
  { c with register := { c.register with PC := 0x48 }, ticks := c.ticks + 36 }

/-- cpu.rs `fn timer_overflow`: vector 0x50, charge 36. -/
def CPU.timer_overflow (c : CPU) : CPU :=
  let c := { c with memory := { c.memory with master := false } }
  let pc := c.register.PC
  let c := c.push_stack pc
  { c with register := { c.register with PC := 0x50 }, ticks := c.ticks + 36 }

/-- cpu.rs `fn serial_transf_complete`: vector 0x58, charge 36. -/
def CPU.serial_transf_complete (c : CPU) : CPU :=
  let c := { c with memory := { c.memory with master := false } }
  let pc := c.register.PC
  let c := c.push_stack pc
  { c with register := { c.register with PC := 0x58 }, ticks := c.ticks + 36 }

/-- cpu.rs `fn keypad`: vector 0x60, charge 36. -/
def CPU.keypad (c : CPU) : CPU :=
  let c := { c with memory := { c.memory with master := false } }
  let pc := c.register.PC
  let c := c.push_stack pc
  { c with register := { c.register with PC := 0x60 }, ticks := c.ticks + 36 }

/-- cpu.rs `fn interrupt_cycle` (lines 61-95). `trigger` is computed once
from the original IE and IF; the five dispatch tests are sequential,
non-exclusive `if` statements, so every bit set in `trigger` is serviced
in the same evaluation. Each arm clears its bit in IF (`!(flag)` on u8)
before calling the handler and clears IME afterwards. -/
def CPU.interrupt_cycle (c : CPU) : CPU :=
  if c.memory.master ∧ c.memory.enable ≠ 0 ∧ c.memory.flags ≠ 0 then
    let trigger := c.memory.enable &&& c.memory.flags
    let c :=
      if trigger &&& 0b00000001 ≠ 0 then
        let c := { c with memory := { c.memory with flags := c.memory.flags &&& 0xfe } }
        let c := c.vblank
        { c with memory := { c.memory with master := false } }
      else c
    let c :=
      if trigger &&& 0b00000010 ≠ 0 then
        let c := { c with memory := { c.memory with flags := c.memory.flags &&& 0xfd } }
        let c := c.lcd_status
        { c with memory := { c.memory with master := false } }
      else c
    let c :=
      if trigger &&& 0b00000100 ≠ 0 then
        let c := { c with memory := { c.memory with flags := c.memory.flags &&& 0xfb } }
        let c := c.timer_overflow
        { c with memory := { c.memory with master := false } }
      else c
    let c :=
      if trigger &&& 0b00001000 ≠ 0 then
        let c := { c with memory := { c.memory with flags := c.memory.flags &&& 0xf7 } }
        let c := c.serial_transf_complete
        { c with memory := { c.memory with master := false } }
      else c
    let c :=
      if trigger &&& 0b00010000 ≠ 0 then
        let c := { c with memory := { c.memory with flags := c.memory.flags &&& 0xef } }
        let c := c.keypad
        { c with memory := { c.memory with master := false } }
      else c
    c
  else c

/-- Bounds-checked read of an array of `size` entries, modelling the
range check Rust performs on every index. -/
def arr_get (f : Nat → Nat) (size i : Nat) : Option Nat :=
  if i < size then some (f i) else none

/-- Bounds-checked store into an array of `size` entries. -/
def arr_set (f : Nat → Nat) (size i v : Nat) : Option (Nat → Nat) :=
  if i < size then some (updFn f i v) else none

/-- gpu.rs `fn update_tile`, with the array bounds of the source made
explicit: `vram` has 0x2000 entries and `tiles` has 384 entries (x and y
are bounded by construction: the loop runs x over 0..8 and `y = (addr>>1)&7`). -/
def GPU.update_tile_checked (g : GPU) (address value : Nat) : Option GPU :=
  let addr := address &&& 0x1ffe
  let tile := (addr >>> 4) &&& 511
  let y := (addr >>> 1) &&& 7
  (arr_get g.vram 0x2000 addr).bind fun lo =>
    (arr_get g.vram 0x2000 (addr + 1)).bind fun hi =>
      if tile < 384 ∧ y < 8 then
        some { g with tiles := fun t x yy =>
          if t = tile ∧ x < 8 ∧ yy = y then
            (if lo &&& (1 <<< (7 - x)) ≠ 0 then 1 else 0) +
            (if hi &&& (1 <<< (7 - x)) ≠ 0 then 2 else 0)
          else g.tiles t x yy }
      else none

/-- memory.rs `fn read_byte` with the array bounds of the source made
explicit: cart 0x8000, vram/sram/iram/eram 0x2000, oam 0x100, io 0x100,
hram 0x80 entries. `none` models an out-of-range index. -/
def Memory.read_byte_checked (m : Memory) (address : Nat) : Option Nat :=
  if address ≤ 0x7fff then arr_get m.cart 0x8000 address
  else if address ≤ 0x9fff then arr_get m.gpu.vram 0x2000 (address - 0x8000)
  else if address ≤ 0xbfff then arr_get m.sram 0x2000 (address - 0xa000)
  else if address ≤ 0xdfff then arr_get m.iram 0x2000 (address - 0xc000)
  else if address ≤ 0xfdff then arr_get m.eram 0x2000 (address - 0xe000)
  else if address ≤ 0xfeff then arr_get m.gpu.oam 0x100 (address - 0xfe00)
  else if address = 0xff00 then some 0
  else if address = 0xff04 then some 1
  else if address = 0xff40 then some
    ((if m.gpu.switchbg then 0x01 else 0x0) |||
     (if m.gpu.bg_map then 0x08 else 0x0) |||
     (if m.gpu.bg_tile then 0x10 else 0x0) |||
     (if m.gpu.lcd_on then 0x80 else 0x0))
  else if address = 0xff42 then some m.gpu.scroll_y
  else if address = 0xff43 then some m.gpu.scroll_x
  else if address = 0xff44 then some m.gpu.scanline
  else if address = 0xff4a then some m.gpu.win_y
  else if address = 0xff4b then some m.gpu.win_x
  else if address = 0xff0f then some m.flags
  else if address ≤ 0xff7f then arr_get m.io 0x100 (address - 0xff00)
  else if address ≤ 0xfffe then arr_get m.hram 0x80 (address - 0xff80)
  else if address = 0xffff then some m.enable
  else some 1

/-- One iteration of the OAM DMA loop in the bounds-checked model: read
the source byte, then store it at index i of the 0x100-entry OAM array. -/
def oam_dma_step (v : Nat) (om : Option Memory) (i : Nat) : Option Memory :=
  om.bind fun mm =>
    (mm.read_byte_checked (v + i)).bind fun b =>
      (arr_set mm.gpu.oam 0x100 i b).map fun oam2 =>
        { mm with gpu := { mm.gpu with oam := oam2 } }

/-- memory.rs `fn oam_to_ram` in the bounds-checked model. -/
def Memory.oam_to_ram_checked (m : Memory) (value : Nat) : Option Memory :=
  (List.range 0xa0).foldl (oam_dma_step (value <<< 8)) (some m)

/-- memory.rs `fn write_byte` with the array bounds of the source made
explicit; the VRAM arm calls the checked `update_tile` under the same
strict `address < 0x97ff` guard as the source. -/
def Memory.write_byte_checked (m : Memory) (address value : Nat) : Option Memory :=
  if address ≤ 0x7fff then
    (arr_set m.cart 0x8000 address value).map fun a => { m with cart := a }
  else if address ≤ 0x9fff then
    (arr_set m.gpu.vram 0x2000 (address - 0x8000) value).bind fun a =>
      let m := { m with gpu := { m.gpu with vram := a } }
      if address < 0x97ff then
        (m.gpu.update_tile_checked address value).map fun g => { m with gpu := g }
      else some m
  else if address ≤ 0xbfff then
    (arr_set m.sram 0x2000 (address - 0xa000) value).map fun a => { m with sram := a }
  else if address ≤ 0xdfff then
    (arr_set m.iram 0x2000 (address - 0xc000) value).map fun a => { m with iram := a }
  else if address ≤ 0xfdff then
    (arr_set m.eram 0x2000 (address - 0xe000) value).map fun a => { m with eram := a }
  else if address ≤ 0xfeff then
    (arr_set m.gpu.oam 0x100 (address - 0xfe00) value).map fun a =>
      { m with gpu := { m.gpu with oam := a } }
  else if address = 0xff40 then
    some { m with gpu := { m.gpu with
      switchbg := decide (value &&& 0x01 ≠ 0),
      bg_map := decide (value &&& 0x08 ≠ 0),
      bg_tile := decide (value &&& 0x10 ≠ 0),
      lcd_on := decide (value &&& 0x80 ≠ 0) } }
  else if address = 0xff42 then some { m with gpu := { m.gpu with scroll_y := value } }
  else if address = 0xff43 then some { m with gpu := { m.gpu with scroll_x := value } }
  else if address = 0xff46 then m.oam_to_ram_checked value
  else if address = 0xff47 then some { m with gpu := m.gpu.u_palette_b value }
  else if address = 0xff48 then some { m with gpu := m.gpu.u_s_palette0 value }
  else if address = 0xff49 then some { m with gpu := m.gpu.u_s_palette1 value }
  else if address = 0xff4a then some { m with gpu := { m.gpu with win_y := value } }
  else if address = 0xff4b then some { m with gpu := { m.gpu with win_x := value } }
  else if address = 0xff0f then some { m with flags := value }
  else if address ≤ 0xff7f then
    (arr_set m.io 0x100 (address - 0xff00) value).map fun a => { m with io := a }
  else if address ≤ 0xfffe then
    (arr_set m.hram 0x80 (address - 0xff80) value).map fun a => { m with hram := a }
  else some m

/-- One step of the GPU test harness: tick once with a delta (converted
to the cumulative counter `gpu_cycle` expects) and count a true return. -/
def run_gpu_step (flags enable : Nat) (p : GPU × Nat) (d : Nat) : GPU × Nat :=
  let r := p.1.gpu_cycle (p.1.prev_ticks + d) flags enable
  (r.1, p.2 + if r.2 then 1 else 0)

/-- Test harness for the GPU state machine: feed a list of tick deltas
and count how many calls returned true. -/
def run_gpu (g : GPU) (deltas : List Nat) (flags enable : Nat) : GPU × Nat :=
  deltas.foldl (run_gpu_step flags enable) (g, 0)

/-! ## Supporting lemmas -/

/-- Right shift distributes over bitwise AND. -/
theorem shiftRight_and_distrib (x y k : Nat) :
    (x &&& y) >>> k = (x >>> k) &&& (y >>> k) := by
  apply Nat.eq_of_testBit_eq
  intro i
  simp [Nat.testBit_shiftRight, Nat.testBit_and]

/-- The tile index computed by `update_tile` stays below 384 for every
address the `write_byte` guard lets through. -/
theorem update_tile_index_lt (address : Nat)
    (h1 : 0x8000 ≤ address) (h2 : address < 0x97ff) :
    ((address &&& 0x1ffe) >>> 4) &&& 511 < 384 := by
  have e0 : (0x1ffe : Nat) >>> 4 = 511 := rfl
  have e1 : ((address &&& 0x1ffe) >>> 4) &&& 511 = (address >>> 4) &&& 511 := by
    rw [shiftRight_and_distrib, e0, Nat.and_assoc, Nat.and_self]
  have e2 : (address >>> 4) &&& 511 = (address >>> 4) % 512 := by
    have : (511 : Nat) = 2 ^ 9 - 1 := rfl
    rw [this, Nat.and_pow_two_sub_one_eq_mod]
  have e3 : address >>> 4 = address / 16 := Nat.shiftRight_eq_div_pow address 4
  rw [e1, e2, e3]
  omega

/-- The bounds-checked `update_tile` succeeds for every address the
`write_byte` VRAM arm passes to it. -/
theorem update_tile_checked_isSome (g : GPU) (address value : Nat)
    (h1 : 0x8000 ≤ address) (h2 : address < 0x97ff) :
    (g.update_tile_checked address value).isSome := by
  have hb : address &&& 0x1ffe ≤ 0x1ffe := Nat.and_le_right
  have hy : ((address &&& 0x1ffe) >>> 1) &&& 7 ≤ 7 := Nat.and_le_right
  have c1 : address &&& 0x1ffe < 0x2000 := lt_of_le_of_lt hb (by norm_num)
  have c2 : (address &&& 0x1ffe) + 1 < 0x2000 :=
    lt_of_le_of_lt (Nat.add_le_add_right hb 1) (by norm_num)
  have c3 : ((address &&& 0x1ffe) >>> 4) &&& 511 < 384 ∧
      ((address &&& 0x1ffe) >>> 1) &&& 7 < 8 :=
    ⟨update_tile_index_lt address h1 h2, lt_of_le_of_lt hy (by norm_num)⟩
  simp only [GPU.update_tile_checked, arr_get]
  rw [if_pos c1, Option.some_bind, if_pos c2, Option.some_bind, if_pos c3]
  rfl

/-- The bounds-checked `read_byte` succeeds at every address: each arm of
the dispatch computes an index inside its backing array, and addresses
past the last arm hit the constant default. -/
theorem read_byte_checked_isSome (m : Memory) (address : Nat) :
    (m.read_byte_checked address).isSome := by
  unfold Memory.read_byte_checked arr_get
  by_cases h1 : address ≤ 0x7fff
  · rw [if_pos h1, if_pos (show address < 0x8000 by omega)]; rfl
  rw [if_neg h1]
  by_cases h2 : address ≤ 0x9fff
  · rw [if_pos h2, if_pos (show address - 0x8000 < 0x2000 by omega)]; rfl
  rw [if_neg h2]
  by_cases h3 : address ≤ 0xbfff
  · rw [if_pos h3, if_pos (show address - 0xa000 < 0x2000 by omega)]; rfl
  rw [if_neg h3]
  by_cases h4 : address ≤ 0xdfff
  · rw [if_pos h4, if_pos (show address - 0xc000 < 0x2000 by omega)]; rfl
  rw [if_neg h4]
  by_cases h5 : address ≤ 0xfdff
  · rw [if_pos h5, if_pos (show address - 0xe000 < 0x2000 by omega)]; rfl
  rw [if_neg h5]
  by_cases h6 : address ≤ 0xfeff
  · rw [if_pos h6, if_pos (show address - 0xfe00 < 0x100 by omega)]; rfl
  rw [if_neg h6]
  by_cases e1 : address = 0xff00
  · rw [if_pos e1]; rfl
  rw [if_neg e1]
  by_cases e2 : address = 0xff04
  · rw [if_pos e2]; rfl
  rw [if_neg e2]
  by_cases e3 : address = 0xff40
  · rw [if_pos e3]; rfl
  rw [if_neg e3]
  by_cases e4 : address = 0xff42
  · rw [if_pos e4]; rfl
  rw [if_neg e4]
  by_cases e5 : address = 0xff43
  · rw [if_pos e5]; rfl
  rw [if_neg e5]
  by_cases e6 : address = 0xff44
  · rw [if_pos e6]; rfl
  rw [if_neg e6]
  by_cases e7 : address = 0xff4a
  · rw [if_pos e7]; rfl
  rw [if_neg e7]
  by_cases e8 : address = 0xff4b
  · rw [if_pos e8]; rfl
  rw [if_neg e8]
  by_cases e9 : address = 0xff0f
  · rw [if_pos e9]; rfl
  rw [if_neg e9]
  by_cases h7 : address ≤ 0xff7f
  · rw [if_pos h7, if_pos (show address - 0xff00 < 0x100 by omega)]; rfl
  rw [if_neg h7]
  by_cases h8 : address ≤ 0xfffe
  · rw [if_pos h8, if_pos (show address - 0xff80 < 0x80 by omega)]; rfl
  rw [if_neg h8]
  by_cases e10 : address = 0xffff
  · rw [if_pos e10]; rfl
  rw [if_neg e10]; rfl

/-- Every iteration of the bounds-checked OAM DMA loop preserves success:
the source read always succeeds and the destination index stays below
0x100. -/
theorem oam_dma_fold_isSome (v : Nat) (l : List Nat) :
    ∀ m : Memory, (∀ i ∈ l, i < 0x100) →
      ((l.foldl (oam_dma_step v) (some m))).isSome := by
  induction l with
  | nil => intro m _; rfl
  | cons a t ih =>
    intro m h
    have ha : a < 0x100 := h a (List.mem_cons_self a t)
    obtain ⟨b, hb⟩ := Option.isSome_iff_exists.mp (read_byte_checked_isSome m (v + a))
    have hstep : ∃ m2, oam_dma_step v (some m) a = some m2 := by
      unfold oam_dma_step arr_set
      rw [Option.some_bind, hb, Option.some_bind, if_pos ha]
      exact ⟨_, rfl⟩
    obtain ⟨m2, hm2⟩ := hstep
    rw [List.foldl_cons, hm2]
    exact ih m2 (fun i hi => h i (List.mem_cons_of_mem a hi))

/-- With an IF byte of 0 the gate `(enable & flags) != 0` inside
`gpu_cycle` is false, so no call can report a vblank, whatever the GPU
state and the IE byte. -/
theorem gpu_cycle_flags_zero_false (g : GPU) (cputicks enable : Nat) :
    (g.gpu_cycle cputicks 0 enable).2 = false := by
  rcases g with ⟨vram, oam, sb, bm, bt, lo, sl, sx, sy, wx, wy, mode, gt, pt, pb, s0, s1, px, tl⟩
  rcases mode with _|_|_|_|m <;>
    · simp only [GPU.gpu_cycle]
      repeat' split
      all_goals simp

/-- Whenever `gpu_cycle` returns true, the IE and IF bytes it was passed
have a common set bit, and the state it returns has scanline 143 and has
just entered mode 1 — the true return happens at the transition into
scanline 143, never out of it. -/
theorem gpu_cycle_fire_shape (g : GPU) (cputicks flags enable : Nat)
    (h : (g.gpu_cycle cputicks flags enable).2 = true) :
    enable &&& flags ≠ 0 ∧
    (g.gpu_cycle cputicks flags enable).1.scanline = 143 ∧
    (g.gpu_cycle cputicks flags enable).1.gpu_mode = 1 := by
  rcases g with ⟨vram, oam, sb, bm, bt, lo, sl, sx, sy, wx, wy, mode, gt, pt, pb, s0, s1, px, tl⟩
  rcases mode with _|_|_|_|m
  · simp only [GPU.gpu_cycle] at h ⊢
    repeat' split at h
    all_goals simp_all
  · simp only [GPU.gpu_cycle] at h ⊢
    repeat' split at h <;> simp_all
  · simp only [GPU.gpu_cycle] at h ⊢
    repeat' split at h <;> simp_all
  · simp only [GPU.gpu_cycle] at h ⊢
    repeat' split at h <;> simp_all
  · simp only [GPU.gpu_cycle] at h
    exact Bool.noConfusion h

/-- Folding the harness step with an IF byte of 0 never increments the
vblank count. -/
theorem run_gpu_flags_zero_aux (enable : Nat) (deltas : List Nat) :
    ∀ (g : GPU) (k : Nat),
      (deltas.foldl (run_gpu_step 0 enable) (g, k)).2 = k := by
  induction deltas with
  | nil => intro g k; rfl
  | cons d t ih =>
    intro g k
    rw [List.foldl_cons]
    have h1 : run_gpu_step 0 enable (g, k) d =
        ((g.gpu_cycle (g.prev_ticks + d) 0 enable).1, k) := by
      simp [run_gpu_step, gpu_cycle_flags_zero_false]
    rw [h1]
    exact ih _ k

/-- Any run of the GPU with an IF byte of 0 reports zero vblanks. -/
theorem run_gpu_flags_zero (g : GPU) (enable : Nat) (deltas : List Nat) :
    (run_gpu g deltas 0 enable).2 = 0 :=
  run_gpu_flags_zero_aux enable deltas g 0

set_option maxRecDepth 2000 in
/-- Bounded decision facts about the low nibble of F under the four flag
masks: OR-ing a mask in and AND-ing a mask out both keep the low nibble
zero. -/
theorem low_nibble_mask_aux : ∀ x < 256, x &&& 0x0f = 0 →
    ∀ mk ∈ [0x10, 0x20, 0x40, 0x80],
      ((x ||| mk) &&& 0x0f = 0 ∧ (x &&& (0xff ^^^ mk)) &&& 0x0f = 0) := by
  decide

/-! ## Claim theorems -/

/-- C1: the claim states that ADC leaves A = (a+b+cin) mod 256, sets C iff
a+b+cin > 255, sets H iff (a&0xF)+(b&0xF)+cin > 0xF, sets Z iff the stored
result is 0, and clears N. The code stores the right A and clears N, but
sets Z from `a == value` instead of the result, never sets C (the u8
truncation of the 0xff00 mask makes the test vacuous), and omits the
carry-in from the H test. At A=0xFF, operand 0x01, carry-in 0 the result
is 0 and the full sum exceeds 255, yet Z and C come out clear; at A=0x0F,
operand 0x00, carry-in 1 the nibble sum with carry exceeds 0xF, yet H
comes out clear. -/
theorem adc_a_zero_carry_flags_bug :
    (let r := adc_a { Registers.new with A := 0xff, F := 0x00 } 0x01
     (0xff + 0x01 + 0) % 256 = 0 ∧ 0xff + 0x01 + 0 > 255 ∧
     r.A = 0 ∧ r.flag_get Flags.Z = false ∧ r.flag_get Flags.C = false ∧
     r.flag_get Flags.N = false) ∧
    (let r := adc_a { Registers.new with A := 0x0f, F := 0x10 } 0x00
     (0x0f &&& 0xf) + (0x00 &&& 0xf) + 1 > 0xf ∧
     r.A = 0x10 ∧ r.flag_get Flags.H = false) := by
  decide

/-- C2: the claim states that one interrupt evaluation dispatches exactly
one interrupt (the lowest pending bit), clears only that bit, and charges
20 cycles. The five dispatch tests in the code are sequential
non-exclusive `if`s over a trigger computed once, and each handler charges
36 ticks: from IME set, IE = IF = 0x03, PC = 0x0100, SP = 0xFFFE, one call
services BOTH the VBLANK and the STAT interrupts — IF ends at 0 (the STAT
bit is cleared too), PC ends at the STAT vector 0x48 after pushing 0x0100
and then 0x40, SP drops by 4, and 72 ticks are charged. Even with a single
pending bit the charge is 36 ticks, not 20. -/
theorem interrupt_cycle_multi_dispatch_bug :
    (let m0 : Memory := { Memory.new with master := true, enable := 0x03, flags := 0x03 }
     let c0 : CPU := { register := Registers.new, memory := m0, ticks := 0,
                       stopped := false, halted := false, debugging := false }
     let c := c0.interrupt_cycle
     c.register.PC = 0x48 ∧ c.memory.flags = 0 ∧ c.ticks = 72 ∧
     c.register.SP = 0xfffa ∧ c.memory.master = false ∧
     c.memory.read_short 0xfffc = 0x0100 ∧ c.memory.read_short 0xfffa = 0x40) ∧
    (let m1 : Memory := { Memory.new with master := true, enable := 0x01, flags := 0x01 }
     let c1 : CPU := { register := Registers.new, memory := m1, ticks := 0,
                       stopped := false, halted := false, debugging := false }
     c1.interrupt_cycle.ticks = 36 ∧ c1.interrupt_cycle.register.PC = 0x40) := by
  decide

/-- C3: the claim states that write_byte(0xFFFF, v) stores v as IE and a
subsequent read_byte(0xFFFF) returns v. The `0xffff => enable = value`
arm of the source match is commented out, so the write falls through to
the empty default arm: after write_byte(0xFFFF, 5) the IE byte is
unchanged and read_byte(0xFFFF) still returns 0, not 5. -/
theorem write_byte_ie_ignored_bug :
    (Memory.new.write_byte 0xffff 0x05).read_byte 0xffff = 0 ∧
    (Memory.new.write_byte 0xffff 0x05).enable = Memory.new.enable ∧
    (0 : Nat) ≠ 0x05 := by
  decide

/-- C4: the claim states that after write_byte(addr, v) for every addr in
[0x8000, 0x97FF] — including the upper boundary — the tile cache row
reflects the new VRAM bytes. The refresh guard in the code is the strict
test `address < 0x97ff`, so the write at 0x97FF updates VRAM byte 0x17FF
but leaves tile 383 row 7 stale: the correct decoding of pixel 6 of that
row from the current VRAM bytes is 2, while every cached pixel of the row
is still 0. A write one address lower (0x97FD) does refresh its row. -/
theorem update_tile_upper_boundary_bug :
    (let m := Memory.new.write_byte 0x97ff 0xff
     m.gpu.vram 0x17ff = 0xff ∧
     (∀ x < 8, m.gpu.tiles 383 x 7 = 0) ∧
     (if m.gpu.vram 0x17fe &&& (1 <<< 1) ≠ 0 then 1 else 0) +
       (if m.gpu.vram 0x17ff &&& (1 <<< 1) ≠ 0 then 2 else 0) = 2) ∧
    (Memory.new.write_byte 0x97fd 0xff).gpu.tiles 383 6 6 = 2 := by
  decide

/-- C5: the claim states that the GPU tick returns true exactly once per
70224-tick frame, precisely at the 143-to-144 scanline transition,
unconditionally with respect to the IE and IF bytes passed to it. In the
code the true return is gated on `(enable & flags) != 0` (evaluated on
the bytes passed in, i.e. the OLD IF) and happens when the scanline
becomes 143 on entry to mode 1 (the 142-to-143 transition): first, over
every run — any GPU state, any IE byte, any sequence of tick deltas,
which includes a whole 70224-tick frame from the initial state — a zero
IF byte yields zero true returns, so with IE = IF = 0 no frame ever
fires; second, every call that does return true was gated on a common
set bit of IE and IF and leaves the scanline at 143 (not 144), having
just entered mode 1. -/
theorem gpu_cycle_vblank_gating_bug :
    (∀ (g : GPU) (enable : Nat) (deltas : List Nat),
        (run_gpu g deltas 0 enable).2 = 0) ∧
    (∀ (g : GPU) (cputicks flags enable : Nat),
        (g.gpu_cycle cputicks flags enable).2 = true →
          enable &&& flags ≠ 0 ∧
          (g.gpu_cycle cputicks flags enable).1.scanline = 143 ∧
          (g.gpu_cycle cputicks flags enable).1.gpu_mode = 1) :=
  ⟨fun g enable deltas => run_gpu_flags_zero g enable deltas,
   fun g cputicks flags enable h => gpu_cycle_fire_shape g cputicks flags enable h⟩

/-- Witness for C5 at the concrete state one mode-0 completion before the
vblank entry (mode 0, scanline 142), ticked with 204 cycles and
IE = IF = 1: the call fires and the scanline lands on 143, and a short
concrete run with IF = 0 counts zero vblanks. -/
theorem gpu_cycle_vblank_gating_bug_witness :
    (run_gpu GPU.new [204, 80] 0 0).2 = 0 ∧
    ((({ GPU.new with scanline := 142 } : GPU).gpu_cycle 204 1 1).2 = true ∧
     (1 &&& 1 ≠ 0 ∧
      (({ GPU.new with scanline := 142 } : GPU).gpu_cycle 204 1 1).1.scanline = 143 ∧
      (({ GPU.new with scanline := 142 } : GPU).gpu_cycle 204 1 1).1.gpu_mode = 1)) :=
  ⟨gpu_cycle_vblank_gating_bug.1 GPU.new 0 [204, 80],
   by decide,
   gpu_cycle_vblank_gating_bug.2 { GPU.new with scanline := 142 } 204 1 1 (by decide)⟩

/-- C6 (counterexample): the claim states that after writing 0x3C to
0x8000 and 0x42 to 0x8001 tile 0 row 0 equals [0,2,3,3,3,3,2,0]. With
low = 0x3C and high = 0x42 the claim's own per-pixel rule
(high_bit<<1)|low_bit gives [0,2,1,1,1,1,2,0] — the expected vector in
the claim corresponds to high byte 0x7E, not 0x42 — and the cache indeed
differs from the claimed vector. -/
theorem tile_decode_claimed_row_refuted :
    ¬ (let m := (Memory.new.write_byte 0x8000 0x3c).write_byte 0x8001 0x42
       [m.gpu.tiles 0 0 0, m.gpu.tiles 0 1 0, m.gpu.tiles 0 2 0,
        m.gpu.tiles 0 3 0, m.gpu.tiles 0 4 0, m.gpu.tiles 0 5 0,
        m.gpu.tiles 0 6 0, m.gpu.tiles 0 7 0] = [0, 2, 3, 3, 3, 3, 2, 0]) := by
  decide

/-- C6 (amended): after the two bus writes write_byte(0x8000, 0x3C) and
write_byte(0x8001, 0x42), tile 0 row 0 of the tile cache equals
[0,2,1,1,1,1,2,0], where each pixel is (high_bit<<1)|low_bit taken from
bit 7 (leftmost) down to bit 0 of the two bitplane bytes. -/
theorem tile_decode_row_actual :
    (let m := (Memory.new.write_byte 0x8000 0x3c).write_byte 0x8001 0x42
     [m.gpu.tiles 0 0 0, m.gpu.tiles 0 1 0, m.gpu.tiles 0 2 0,
      m.gpu.tiles 0 3 0, m.gpu.tiles 0 4 0, m.gpu.tiles 0 5 0,
      m.gpu.tiles 0 6 0, m.gpu.tiles 0 7 0] = [0, 2, 1, 1, 1, 1, 2, 0]) := by
  decide

/-- C7: the claim states that ADD HL,rr sets H iff there is a carry out of
bit 11 and C iff there is a carry out of bit 15. The code tests the carry
out of bit 3 for H and its C test `res & 0xffff0000` is vacuous on u16:
at HL = 0x8F00, rr = 0x8100 the bit-11 carry and the bit-15 carry both
occur, yet the code leaves H and C clear. HL does receive the wrapped sum
0x1000, N is cleared, and Z is untouched. -/
theorem add_hl_flags_bug :
    (let r := add_hl { Registers.new with H := 0x8f, L := 0x00, F := 0x00 } 0x8100
     (0x8f00 &&& 0x0fff) + (0x8100 &&& 0x0fff) > 0x0fff ∧
     0x8f00 + 0x8100 > 0xffff ∧
     r.get_hl = 0x1000 ∧ r.flag_get Flags.H = false ∧
     r.flag_get Flags.C = false ∧ r.flag_get Flags.N = false) := by
  decide

/-- C8: the claim states that LDHL SP,e8 and ADD SP,e8 both store
SP + sign-extend(e8) mod 2^16 (into HL and SP respectively) and compute H
and C from the unsigned low-byte addition of SP and the operand. add_sp_n
does sign-extend, but ldhl_sp_d zero-extends the operand and computes H
and C from SP and the full sum instead of the operand: at SP = 0, operand
0xFF, ADD SP,e8 yields SP = 0xFFFF while LDHL SP,e8 yields HL = 0x00FF;
at SP = 0x000F, operand 0x01 the low-nibble sum 0xF+1 exceeds 0xF so the
claim requires H set, yet ldhl_sp_d leaves H clear. -/
theorem ldhl_sp_d_sign_extension_bug :
    (add_sp_n { Registers.new with SP := 0x0000, F := 0 } 0xff).SP = 0xffff ∧
    (ldhl_sp_d { Registers.new with SP := 0x0000, F := 0 } 0xff).get_hl = 0x00ff ∧
    (0x00ff : Nat) ≠ 0xffff ∧
    (0x000f &&& 0xf) + (0x01 &&& 0xf) > 0xf ∧
    (ldhl_sp_d { Registers.new with SP := 0x000f, F := 0 } 0x01).flag_get Flags.H
      = false := by
  decide

/-- C9: the low nibble of F is zero in the initial post-boot state, and
every primitive through which the code writes F — flag_set and flag_reset
(whose four masks lie in the high nibble) and set_af (which masks the
stored byte with 0xF0) — preserves that property, so F & 0x0F = 0 holds in
every reachable CPU state (no other code path assigns F). -/
theorem f_low_nibble_invariant (r : Registers) (f : Flags) (v : Nat)
    (hF : r.F < 256) (h0 : r.F &&& 0x0f = 0) :
    Registers.new.F &&& 0x0f = 0 ∧
    (r.flag_set f).F &&& 0x0f = 0 ∧
    (r.flag_reset f).F &&& 0x0f = 0 ∧
    (r.set_af v).F &&& 0x0f = 0 := by
  refine ⟨by decide, ?_, ?_, ?_⟩
  · cases f
    · exact (low_nibble_mask_aux r.F hF h0 0x80 (by decide)).1
    · exact (low_nibble_mask_aux r.F hF h0 0x40 (by decide)).1
    · exact (low_nibble_mask_aux r.F hF h0 0x20 (by decide)).1
    · exact (low_nibble_mask_aux r.F hF h0 0x10 (by decide)).1
  · cases f
    · exact (low_nibble_mask_aux r.F hF h0 0x80 (by decide)).2
    · exact (low_nibble_mask_aux r.F hF h0 0x40 (by decide)).2
    · exact (low_nibble_mask_aux r.F hF h0 0x20 (by decide)).2
    · exact (low_nibble_mask_aux r.F hF h0 0x10 (by decide)).2
  · show (v &&& 0x00f0) &&& 0x0f = 0
    rw [Nat.and_assoc]
    have h2 : (0x00f0 : Nat) &&& 0x0f = 0 := rfl
    rw [h2, Nat.and_zero]

/-- Witness for C9 at the post-boot register file, flag Z, operand
0x1234. -/
theorem f_low_nibble_invariant_witness :
    Registers.new.F < 256 ∧ Registers.new.F &&& 0x0f = 0 ∧
    (Registers.new.F &&& 0x0f = 0 ∧
     (Registers.new.flag_set Flags.Z).F &&& 0x0f = 0 ∧
     (Registers.new.flag_reset Flags.Z).F &&& 0x0f = 0 ∧
     (Registers.new.set_af 0x1234).F &&& 0x0f = 0) :=
  ⟨by decide, by decide,
   f_low_nibble_invariant Registers.new Flags.Z 0x1234 (by decide) (by decide)⟩

/-- C10: every single-byte bus access is total — for every address in the
16-bit space and every byte value, the range dispatch of read_byte and
write_byte computes an index inside the selected backing array (cart
0x8000, vram/sram/iram/eram 0x2000, OAM 0x100, io 0x100, hram 0x80
entries, or a scalar register), including the tile-cache refresh and the
OAM DMA loop triggered by writes, so no access can index out of range. -/
theorem bus_access_in_bounds (m : Memory) (address value : Nat)
    (ha : address < 0x10000) (hv : value < 256) :
    (m.read_byte_checked address).isSome ∧
    (m.write_byte_checked address value).isSome := by
  refine ⟨read_byte_checked_isSome m address, ?_⟩
  unfold Memory.write_byte_checked arr_set
  by_cases h1 : address ≤ 0x7fff
  · rw [if_pos h1, if_pos (show address < 0x8000 by omega)]; rfl
  rw [if_neg h1]
  by_cases h2 : address ≤ 0x9fff
  · rw [if_pos h2, if_pos (show address - 0x8000 < 0x2000 by omega)]
    simp only [Option.some_bind]
    by_cases hg : address < 0x97ff
    · rw [if_pos hg]
      obtain ⟨g2, hg2⟩ := Option.isSome_iff_exists.mp
        (update_tile_checked_isSome _ address value (by omega) hg)
      rw [hg2]
      rfl
    · rw [if_neg hg]; rfl
  rw [if_neg h2]
  by_cases h3 : address ≤ 0xbfff
  · rw [if_pos h3, if_pos (show address - 0xa000 < 0x2000 by omega)]; rfl
  rw [if_neg h3]
  by_cases h4 : address ≤ 0xdfff
  · rw [if_pos h4, if_pos (show address - 0xc000 < 0x2000 by omega)]; rfl
  rw [if_neg h4]
  by_cases h5 : address ≤ 0xfdff
  · rw [if_pos h5, if_pos (show address - 0xe000 < 0x2000 by omega)]; rfl
  rw [if_neg h5]
  by_cases h6 : address ≤ 0xfeff
  · rw [if_pos h6, if_pos (show address - 0xfe00 < 0x100 by omega)]; rfl
  rw [if_neg h6]
  by_cases e1 : address = 0xff40
  · rw [if_pos e1]; rfl
  rw [if_neg e1]
  by_cases e2 : address = 0xff42
  · rw [if_pos e2]; rfl
  rw [if_neg e2]
  by_cases e3 : address = 0xff43
  · rw [if_pos e3]; rfl
  rw [if_neg e3]
  by_cases e4 : address = 0xff46
  · rw [if_pos e4]
    unfold Memory.oam_to_ram_checked
    exact oam_dma_fold_isSome _ _ m
      (fun i hi => by have := List.mem_range.mp hi; omega)
  rw [if_neg e4]
  by_cases e5 : address = 0xff47
  · rw [if_pos e5]; rfl
  rw [if_neg e5]
  by_cases e6 : address = 0xff48
  · rw [if_pos e6]; rfl
  rw [if_neg e6]
  by_cases e7 : address = 0xff49
  · rw [if_pos e7]; rfl
  rw [if_neg e7]
  by_cases e8 : address = 0xff4a
  · rw [if_pos e8]; rfl
  rw [if_neg e8]
  by_cases e9 : address = 0xff4b
  · rw [if_pos e9]; rfl
  rw [if_neg e9]
  by_cases e10 : address = 0xff0f
  · rw [if_pos e10]; rfl
  rw [if_neg e10]
  by_cases h7 : address ≤ 0xff7f
  · rw [if_pos h7, if_pos (show address - 0xff00 < 0x100 by omega)]; rfl
  rw [if_neg h7]
  by_cases h8 : address ≤ 0xfffe
  · rw [if_pos h8, if_pos (show address - 0xff80 < 0x80 by omega)]; rfl
  rw [if_neg h8]; rfl

/-- Witness for C10 at the freshly constructed bus, address 0x8123 (a
VRAM write that also refreshes the tile cache), value 0x12. -/
theorem bus_access_in_bounds_witness :
    (0x8123 : Nat) < 0x10000 ∧ (0x12 : Nat) < 256 ∧
    ((Memory.new.read_byte_checked 0x8123).isSome ∧
     (Memory.new.write_byte_checked 0x8123 0x12).isSome) :=
  ⟨by decide, by decide,
   bus_access_in_bounds Memory.new 0x8123 0x12 (by decide) (by decide)⟩

end RustBoy
